import Mathlib

/-!
Shallow embedding of `QuickenToModelPortfolioIII.py` (Python 2).

Modelling conventions:
* Python `float` values are modelled as exact rationals (`ℚ`).  All dollar
  amounts in the program come from short decimal strings, so the rational
  model tracks the decimal arithmetic of the source; binary floating point
  rounding is outside the scope of the claims settled here.
* Python strings are modelled as `List Char`; input lines are `List Char`.
* Python dictionaries are modelled as association lists in insertion order
  (CPython 2.7 iterates dicts in hash order; no claim below depends on the
  iteration order, and overwriting a key keeps its position in both models).
* `print a, b, c` produces one output line: the arguments joined by single
  spaces.  Output is collected as a `List (List Char)` in print order.
* A Python crash (uncaught exception) or `exit()` is modelled by `Except`
  or by an `Option` result that is `none`, with the output printed so far
  retained where the claims need it.
-/

/-! ### Python primitives -/

/-- Python 2 `int()` applied to a float: truncation toward zero. -/
def pyInt (q : ℚ) : ℤ :=
  if 0 ≤ q then ⌊q⌋ else ⌈q⌉

/-- Decimal digits of a natural number, as printed by Python `str`. -/
def natDigits (n : ℕ) : List Char :=
  Nat.toDigits 10 n

/-- Python 2 `str()` of an `int`. -/
def intRepr (i : ℤ) : List Char :=
  if i < 0 then '-' :: natDigits i.natAbs else natDigits i.natAbs

/-- `s.replace(',', '')` from the source's numeric conversions. -/
def stripCommas (s : List Char) : List Char :=
  s.filter (fun c => c ≠ ',')

/-- Consume a maximal run of ASCII digits: returns the accumulated value,
the number of digits consumed, and the rest of the string. -/
def readDigits : List Char → ℕ → ℕ → ℕ × ℕ × List Char
  | [], v, n => (v, n, [])
  | c :: s, v, n =>
    if c.isDigit then readDigits s (10 * v + (c.toNat - 48)) (n + 1) else (v, n, c :: s)

/-- Optional exponent part of a Python float literal: empty, or `e`/`E`
followed by an optionally signed run of digits. -/
def expPart : List Char → Option ℤ
  | [] => some 0
  | c :: s =>
    if c = 'e' ∨ c = 'E' then
      match s with
      | '-' :: t =>
        match readDigits t 0 0 with
        | (v, n, rest) => if n = 0 ∨ rest ≠ [] then none else some (-(v : ℤ))
      | '+' :: t =>
        match readDigits t 0 0 with
        | (v, n, rest) => if n = 0 ∨ rest ≠ [] then none else some (v : ℤ)
      | t =>
        match readDigits t 0 0 with
        | (v, n, rest) => if n = 0 ∨ rest ≠ [] then none else some (v : ℤ)
    else none

/-- The syntactic part of Python 2 `float()` on the strings reachable from
this program's regular expression groups: optional sign, digits, optional
`.` fraction, optional exponent.  Returns the sign, integer part, fraction
part, fraction length and exponent; `none` models a `ValueError` crash.
(Forms such as `inf`, `nan` or embedded whitespace cannot reach `float()`
here: the groups consist of digits, commas — already stripped — and one
arbitrary non-newline byte.) -/
def pyFloatParts? (s : List Char) : Option (Bool × ℕ × ℕ × ℕ × ℤ) :=
  let signed : Bool × List Char :=
    match s with
    | '-' :: t => (true, t)
    | '+' :: t => (false, t)
    | _ => (false, s)
  match readDigits signed.2 0 0 with
  | (ip, ni, rest1) =>
    match rest1 with
    | '.' :: t =>
      match readDigits t 0 0 with
      | (fp, nf, rest2) =>
        if ni + nf = 0 then none
        else (expPart rest2).map fun e => (signed.1, ip, fp, nf, e)
    | _ =>
      if ni = 0 then none
      else (expPart rest1).map fun e => (signed.1, ip, 0, 0, e)

/-- The numeric value of a parsed float literal. -/
def ratOfParts (p : Bool × ℕ × ℕ × ℕ × ℤ) : ℚ :=
  (if p.1 then -1 else 1) * ((p.2.1 : ℚ) + (p.2.2.1 : ℚ) / (10 : ℚ) ^ p.2.2.2.1) *
    (10 : ℚ) ^ p.2.2.2.2

/-- Python 2 `float()`, as used by the parse patterns' `match` methods. -/
def pyFloat? (s : List Char) : Option ℚ :=
  (pyFloatParts? s).map ratOfParts

/-! ### String formatting (`%` operator and `print`) -/

/-- `'%Ns' % s`: right-justify in a field of width `w`. -/
def padTo (w : ℕ) (s : List Char) : List Char :=
  List.replicate (w - s.length) ' ' ++ s

/-- `'%-Ns' % s`: left-justify in a field of width `w`. -/
def padEnd (w : ℕ) (s : List Char) : List Char :=
  s ++ List.replicate (w - s.length) ' '

/-- Round half to even, the decimal model of `%.2f`'s rounding step. -/
def rhe (x : ℚ) : ℤ :=
  let f := ⌊x⌋
  let r := x - f
  if r < 1 / 2 then f
  else if 1 / 2 < r then f + 1
  else if f % 2 = 0 then f else f + 1

/-- `float_to_printable_str`: `'%.2f' % fval`. -/
def float_to_printable_str (fval : ℚ) : List Char :=
  let n := rhe (fval * 100)
  let m := n.natAbs
  let fr := m % 100
  (if n < 0 then ['-'] else []) ++ natDigits (m / 100) ++
    '.' :: (if fr < 10 then '0' :: natDigits fr else natDigits fr)

/-- `print a, b, c …`: one output line, arguments joined by single spaces. -/
def joinSpace (xs : List (List Char)) : List Char :=
  List.intercalate [' '] xs

/-! ### Regular expression engine

The source parses lines with `re.match` (anchored at the start, trailing
input allowed).  The engine below is a standard backtracking matcher over a
small syntax of the constructs those patterns use, with Python's greedy
semantics and last-write-wins capture groups; `fuel` only bounds recursion
depth and is chosen large enough for any actual match attempt. -/

inductive RE where
  | eps : RE
  | cls (p : Char → Bool) : RE
  | seq (a b : RE) : RE
  | alt (a b : RE) : RE
  | star (r : RE) : RE
  | group (n : ℕ) (r : RE) : RE
  | eol : RE

/-- Single literal character. -/
def chrRE (c : Char) : RE :=
  RE.cls (fun x => x = c)

/-- Literal string. -/
def litRE (s : String) : RE :=
  s.data.foldr (fun c r => RE.seq (chrRE c) r) RE.eps

/-- Greedy `+`. -/
def plusRE (r : RE) : RE :=
  RE.seq r (RE.star r)

/-- Greedy `?`. -/
def optRE (r : RE) : RE :=
  RE.alt r RE.eps

/-- Backtracking matcher in continuation-passing style.  `caps` records the
capture groups closed so far (later entries shadow earlier ones after a
lookup, matching Python's last-repetition-wins groups). -/
def reRun : ℕ → RE → List Char → List (ℕ × List Char) →
    (List Char → List (ℕ × List Char) → Option (List (ℕ × List Char))) →
    Option (List (ℕ × List Char))
  | 0, _, _, _, _ => none
  | _ + 1, RE.eps, s, caps, k => k s caps
  | _ + 1, RE.cls p, s, caps, k =>
    match s with
    | [] => none
    | c :: rest => if p c then k rest caps else none
  | fuel + 1, RE.seq a b, s, caps, k =>
    reRun fuel a s caps fun s' caps' => reRun fuel b s' caps' k
  | fuel + 1, RE.alt a b, s, caps, k =>
    match reRun fuel a s caps k with
    | some res => some res
    | none => reRun fuel b s caps k
  | fuel + 1, RE.star r, s, caps, k =>
    match reRun fuel r s caps (fun s' caps' =>
        if s'.length < s.length then reRun fuel (RE.star r) s' caps' k else none) with
    | some res => some res
    | none => k s caps
  | fuel + 1, RE.group n r, s, caps, k =>
    reRun fuel r s caps fun s' caps' => k s' ((n, s.take (s.length - s'.length)) :: caps')
  | _ + 1, RE.eol, s, caps, k =>
    if s = [] ∨ s = ['\n'] then k s caps else none

/-- `pattern.match(line)`: anchored at the start of the line. -/
def reMatch (r : RE) (s : List Char) : Option (List (ℕ × List Char)) :=
  reRun ((s.length + 2) * 1000) r s [] fun _ caps => some caps

/-! ### The source's patterns -/

/-- `\d` (ASCII, Python 2 byte strings). -/
def digitRE : RE := RE.cls Char.isDigit

/-- `\t`. -/
def tabRE : RE := chrRE '\t'

/-- `.`: any character except a newline. -/
def anyRE : RE := RE.cls (fun c => c ≠ '\n')

/-- `\w` for Python 2 byte strings: `[a-zA-Z0-9_]`. -/
def isWordChar (c : Char) : Bool :=
  c.isAlpha ∨ c.isDigit ∨ c = '_'

/-- The character class `[\w\- ]` of the security-name field. -/
def nameClass (c : Char) : Bool :=
  isWordChar c ∨ c = '-' ∨ c = ' '

/-- The character class `[A-Z0-9:]` of the symbol field. -/
def symClass (c : Char) : Bool :=
  c.isUpper ∨ c.isDigit ∨ c = ':'

/-- Python 2 `\s`: `[ \t\n\r\f\v]`. -/
def pySpace (c : Char) : Bool :=
  c = ' ' ∨ c = '\t' ∨ c = '\n' ∨ c = '\r' ∨ c = '\x0b' ∨ c = '\x0c'

/-- A dollar amount with two decimal places and optional thousands
separators: `(\d+(,\d\d\d)*.\d\d)` — note the unescaped dot of the source,
which matches any non-newline character.  `outer`/`inner` are the group
numbers of the whole amount and of the repeated thousands group. -/
def money2RE (outer inner : ℕ) : RE :=
  RE.group outer (RE.seq (plusRE digitRE)
    (RE.seq (RE.star (RE.group inner (RE.seq (chrRE ',') (RE.seq digitRE (RE.seq digitRE digitRE)))))
      (RE.seq anyRE (RE.seq digitRE digitRE))))

/-- `TitleParsePattern`: `Portfolio Value - As of (\d+\/\d+\/\d+)`. -/
def titleRE : RE :=
  RE.seq (litRE "Portfolio Value - As of ")
    (RE.group 1 (RE.seq (plusRE digitRE) (RE.seq (chrRE '/')
      (RE.seq (plusRE digitRE) (RE.seq (chrRE '/') (plusRE digitRE))))))

/-- `CashParsePattern`: `\t+-Cash-\t+(\d+(,\d\d\d)*.\d\d)`. -/
def cashRE : RE :=
  RE.seq (plusRE tabRE) (RE.seq (litRE "-Cash-") (RE.seq (plusRE tabRE) (money2RE 1 2)))

/-- `SecurityParsePattern`: groups numbered as in the source (1 name,
2 symbol, 3/4 shares, 5 price, 6/7 cost basis, 8/9 gain, 10/11 balance). -/
def securityRE : RE :=
  RE.seq (plusRE tabRE)
  (RE.seq (RE.group 1 (plusRE (RE.cls nameClass)))
  (RE.seq (plusRE tabRE)
  (RE.seq (RE.group 2 (RE.star (RE.cls symClass)))
  (RE.seq tabRE
  (RE.seq (RE.group 3 (RE.seq (plusRE digitRE)
    (RE.seq (RE.star (RE.group 4 (RE.seq (chrRE ',') (RE.seq digitRE (RE.seq digitRE digitRE)))))
      (RE.seq anyRE (RE.seq digitRE (RE.seq digitRE digitRE))))))
  (RE.seq tabRE
  (RE.seq (RE.group 5 (RE.seq (plusRE digitRE) (RE.seq anyRE (RE.seq digitRE (RE.seq digitRE digitRE)))))
  (RE.seq tabRE
  (RE.seq (optRE (chrRE '*'))
  (RE.seq (plusRE tabRE)
  (RE.seq (RE.group 6 (RE.seq (optRE (chrRE '-')) (RE.seq (plusRE digitRE)
    (RE.seq (RE.star (RE.group 7 (RE.seq (chrRE ',') (RE.seq digitRE (RE.seq digitRE digitRE)))))
      (RE.seq anyRE (RE.seq digitRE digitRE))))))
  (RE.seq (plusRE tabRE)
  (RE.seq (RE.group 8 (RE.seq (optRE (chrRE '-')) (RE.seq (plusRE digitRE)
    (RE.seq (RE.star (RE.group 9 (RE.seq (chrRE ',') (RE.seq digitRE (RE.seq digitRE digitRE)))))
      (RE.seq anyRE (RE.seq digitRE digitRE))))))
  (RE.seq (optRE (chrRE '*'))
  (RE.seq (plusRE tabRE)
    (money2RE 10 11))))))))))))))))

/-- `TitleParsePattern.match` plus its group-1 extraction (`report_date`). -/
def titleMatch (l : List Char) : Option (List Char) :=
  (reMatch titleRE l).bind fun caps => caps.lookup 1

/-- `CashParsePattern.match`'s group-1 extraction: the raw matched amount
(before comma stripping and `float()`). -/
def cashGroup (l : List Char) : Option (List Char) :=
  (reMatch cashRE l).bind fun caps => caps.lookup 1

/-- `SecurityParsePattern.match`'s extractions: groups 1 (name), 2 (symbol)
and 10 (raw balance), in that order. -/
def securityGroups (l : List Char) : Option (List Char × List Char × List Char) :=
  (reMatch securityRE l).bind fun caps =>
    (caps.lookup 1).bind fun nm =>
      (caps.lookup 2).bind fun sym =>
        (caps.lookup 10).map fun bal => (nm, sym, bal)

/-- `IGNORE_PATTERNS`, in order: blank line (`\s*$`), the column-header
line, the placeholder marker (`\t\*Placeholder`), and the totals marker
(`\t\TOTAL Investments` — Python 2 reads the escape `\T` as a literal `T`). -/
def IGNORE_PATTERNS : List RE :=
  [RE.seq (RE.star (RE.cls pySpace)) RE.eol,
   litRE "\tSecurity\tSymbol\tShares\tQuote/Price\test\tCost",
   RE.seq tabRE (RE.seq (chrRE '*') (litRE "Placeholder")),
   RE.seq tabRE (litRE "TOTAL Investments")]

/-- The `for pattern in IGNORE_PATTERNS: … if match: break` loop.  Python's
loop variable keeps its last binding, so after the loop `pattern` is the
matching pattern, or the *last* pattern of the list when none matched; it
is `None` only when the list is empty. -/
def ignoreLoop : List RE → List Char → Option RE
  | [], _ => none
  | [p], _ => some p
  | p :: q :: rest, l => if (reMatch p l).isSome then some p else ignoreLoop (q :: rest) l

/-! ### Static configuration tables -/

/-- `Security`: name and dollar balance of a parsed holding. -/
structure Security where
  name : List Char
  balance : ℚ
deriving DecidableEq

/-- `RecommendedSecurity`: name and recommended percentage. -/
structure RecommendedSecurity where
  name : List Char
  percent : ℤ
deriving DecidableEq

/-- The `MODEL_PORTFOLIO_III` dictionary, in the source's insertion order. -/
def MODEL_PORTFOLIO_III : List (List Char × RecommendedSecurity) :=
  [("AKREX".data, ⟨"Akre Focus Fund".data, 5⟩),
   ("VDAIX".data, ⟨"Vanguard Dividend Appreciation".data, 5⟩),
   ("VFWIX".data, ⟨"Vanguard FTSE All-World".data, 10⟩),
   ("VTSMX".data, ⟨"Vanguard Total Stock Market".data, 30⟩),
   ("DLSNX".data, ⟨"DoubleLine Low Duration Bond".data, 20⟩),
   ("MWCRX".data, ⟨"MetroWest Unconstrained Bond".data, 20⟩),
   ("OSTIX".data, ⟨"Osterweis Strategic Income Fund".data, 10⟩)]

/-- The `MAP_SECURITY` dictionary, in the source's insertion order. -/
def MAP_SECURITY : List (List Char × List Char) :=
  [("FSHBX".data, "DLSNX".data),
   ("FSICX".data, "OSTIX".data),
   ("SU".data, "VTSMX".data),
   ("QQQQ".data, "VTSMX".data),
   ("FUSVX".data, "VTSMX".data),
   ("FSTVX".data, "VTSMX".data),
   ("HONEYWEL:750021:TS".data, "VTSMX".data)]

/-- `map_key_to_mp3`: identity on Model Portfolio III symbols, the alias
table on mapped symbols, and otherwise `print` + `exit()`, modelled as
`none` (the caller emits the `No map for symbol` line). -/
def map_key_to_mp3 (key2map : List Char) : Option (List Char) :=
  if (MODEL_PORTFOLIO_III.lookup key2map).isSome then some key2map
  else
    match MAP_SECURITY.lookup key2map with
    | some v => some v
    | none => none

/-- The line printed by `map_key_to_mp3` just before `exit()`. -/
def noMapLine (key2map : List Char) : List Char :=
  joinSpace ["No map for symbol".data, key2map]

/-! ### `read_and_parse_input_file` -/

/-- Abnormal terminations of the parsing phase. -/
inductive PErr where
  /-- `float()` raised `ValueError`. -/
  | valueError : PErr
  /-- The dead `Unexpected line` branch (`print` + `exit()`). -/
  | unexpectedLine (l : List Char) : PErr
  /-- `NameError` at `return`: `date` or `cash_value` was never assigned. -/
  | nameError : PErr
deriving DecidableEq

/-- The parser's loop state: `date` and `cash_value` are unassigned local
variables until the first title / cash match. -/
structure PState where
  date : Option (List Char)
  cash : Option ℚ
  dict : List (List Char × Security)
deriving DecidableEq

/-- `d[k] = v` on a Python dict: overwrite in place or append. -/
def dinsert (d : List (List Char × Security)) (k : List Char) (v : Security) :
    List (List Char × Security) :=
  match d with
  | [] => [(k, v)]
  | (k', v') :: rest => if k' = k then (k, v) :: rest else (k', v') :: dinsert rest k v

/-- One iteration of the parser's `for line in iter(fhandle)` loop. -/
def parseLine (st : PState) (l : List Char) : Except PErr PState :=
  match titleMatch l with
  | some d => .ok { st with date := some d }
  | none =>
    match cashGroup l with
    | some g =>
      match pyFloat? (stripCommas g) with
      | some v => .ok { st with cash := some v }
      | none => .error .valueError
    | none =>
      match securityGroups l with
      | some (nm, sym, bal) =>
        match pyFloat? (stripCommas bal) with
        | some v =>
          if sym = [] then .ok st
          else .ok { st with dict := dinsert st.dict sym ⟨nm, v⟩ }
        | none => .error .valueError
      | none =>
        if (ignoreLoop IGNORE_PATTERNS l).isNone then .error (.unexpectedLine l) else .ok st

/-- The parser's loop followed by the `return (date, cash_value,
security_dict)` statement, which raises `NameError` when a variable was
never assigned. -/
def parseLines (st : PState) : List (List Char) → Except PErr (List Char × ℚ × List (List Char × Security))
  | [] =>
    match st.date, st.cash with
    | some d, some c => .ok (d, c, st.dict)
    | _, _ => .error .nameError
  | l :: ls =>
    match parseLine st l with
    | .ok st' => parseLines st' ls
    | .error e => .error e

/-- `read_and_parse_input_file`, over the file's lines. -/
def read_and_parse_input_file (lines : List (List Char)) :
    Except PErr (List Char × ℚ × List (List Char × Security)) :=
  parseLines ⟨none, none, []⟩ lines

/-! ### Report generation -/

/-- `Percent.__init__`: `self.value = int(numerator / denominator * 100 + 0.5)`.
The rounded integer is the stored value. -/
def percentValue (numerator denominator : ℚ) : ℤ :=
  pyInt (numerator / denominator * 100 + 1 / 2)

/-- An argument of `holdings_line` / `mp3line`, which dispatch on
`isinstance(·, float)` and `isinstance(·, int)`. -/
inductive PyVal where
  | s (v : List Char) : PyVal
  | f (v : ℚ) : PyVal
  | i (v : ℤ) : PyVal
deriving DecidableEq

/-- The string the `isinstance` dispatch of the line formatters produces:
floats through `float_to_printable_str`, ints through `str`. -/
def pyValStr (x : PyVal) : List Char :=
  match x with
  | .s v => v
  | .f v => float_to_printable_str v
  | .i v => intRepr v

/-- `holdings_line`: one line of the actual-holdings report. -/
def holdings_line (symbol name : List Char) (dollars percentage : PyVal) (mp3symbol : List Char) :
    List Char :=
  joinSpace [padEnd 18 symbol, padEnd 40 name, padTo 10 (pyValStr dollars),
    padTo 3 (pyValStr percentage), padTo 5 mp3symbol]

/-- `holdings_columns`: the horizontal-rule line of the holdings report. -/
def holdings_columns : List Char :=
  holdings_line "------------------".data "----------------------------------------".data
    (.s "----------".data) (.s "---".data) "-----".data

/-- The header line printed by `current_holdings_report`. -/
def actualHoldingsTitle (date : List Char) : List Char :=
  joinSpace ["\n                          ACTUAL HOLDINGS AS OF".data, date, "\n".data]

/-- The warning printed when the holdings percentages do not sum to 100. -/
def totalPercentWarn : List Char :=
  "Something is wrong. Total percent is not 100".data

/-- `actual_holdings[mk] += bal` with the `if mk in actual_holdings`
initialization: add in place or append. -/
def dadd (d : List (List Char × ℚ)) (k : List Char) (v : ℚ) : List (List Char × ℚ) :=
  match d with
  | [] => [(k, v)]
  | (k', v') :: rest => if k' = k then (k', v' + v) :: rest else (k', v') :: dadd rest k v

/-- The `for key in security_dict` loop of `current_holdings_report`:
threads the aggregated holdings, the running percent total and the output;
an unmapped symbol prints the `No map for symbol` line and exits. -/
def holdingsLoop (networth : ℚ) :
    List (List Char × Security) → List (List Char × ℚ) → ℤ → List (List Char) →
    List (List Char) × Option (List (List Char × ℚ) × ℤ)
  | [], ah, tap, out => (out, some (ah, tap))
  | (key, sec) :: rest, ah, tap, out =>
    match map_key_to_mp3 key with
    | none => (out ++ [noMapLine key], none)
    | some mk =>
      let ah' := dadd ah mk sec.balance
      let pct := percentValue sec.balance networth
      holdingsLoop networth rest ah' (tap + pct)
        (out ++ [holdings_line key sec.name (.f sec.balance) (.i pct) mk])

/-- `current_holdings_report`.  `cash` is the module-level global assigned
from the parse result.  Returns the output lines and — unless the run was
aborted by an unmapped symbol — the pair `(networth, actual_holdings)`. -/
def current_holdings_report (date : List Char) (cash : ℚ)
    (security_dict : List (List Char × Security)) :
    List (List Char) × Option (ℚ × List (List Char × ℚ)) :=
  let networth := (security_dict.map fun e => e.2.balance).sum
  let header := [actualHoldingsTitle date, holdings_columns,
    holdings_line "Symbol".data "Security Name".data (.s "Value".data) (.s "%".data) "MPIII".data,
    holdings_columns]
  match holdingsLoop networth security_dict [] 0 header with
  | (out, none) => (out, none)
  | (out, some (ah, tap)) =>
    let out2 := out ++ [holdings_line "Cash".data [] (.f cash) (.s []) [],
      holdings_columns,
      holdings_line "Total".data [] (.f (networth + cash)) (.i tap) []] ++
      (if tap ≠ 100 then [totalPercentWarn] else [])
    (out2, some (networth, ah))

/-- `mp3line`: one line of the Model Portfolio III report. -/
def mp3line (symbol name : List Char) (desired_percent actual_percent desired_dollars actual_dollars : PyVal) :
    List Char :=
  joinSpace [padEnd 6 symbol, padEnd 35 name, padTo 9 (pyValStr desired_percent),
    padTo 8 (pyValStr actual_percent), padTo 13 (pyValStr desired_dollars),
    padTo 12 (pyValStr actual_dollars)]

/-- `mp3_columns`: the horizontal-rule line of the Model Portfolio III report. -/
def mp3_columns : List Char :=
  mp3line "------".data "-----------------------------------".data (.s "---------".data)
    (.s "--------".data) (.s "-------------".data) (.s "------------".data)

/-- The title line of the Model Portfolio III report. -/
def mp3Title : List Char :=
  "\n                                MODEL PORTFOLIO III\n".data

/-- The reconciliation warning of `model_portfolio_3_report`. -/
def reconWarn : List Char :=
  "Something is wrong.  Things don".data ++ '\'' :: "t add up.".data

/-- The desired-percent-total warning of `model_portfolio_3_report`. -/
def desiredPercentWarn : List Char :=
  "Something is wrong. Total desired percent is not 100".data

/-- The actual-percent-total warning of `model_portfolio_3_report`. -/
def actualPercentWarn : List Char :=
  "Something is wrong. Total actual percent is not 100".data

/-- The `for key in MODEL_PORTFOLIO_III` loop of `model_portfolio_3_report`:
threads `(total_desired_value, total_desired_percent, total_actual_percent,
total_actual_value)` and the output; `actual_holdings[key]` on a missing
key raises `KeyError`, modelled as a `none` result. -/
def mp3Loop (networth : ℚ) (actual_holdings : List (List Char × ℚ)) :
    List (List Char × RecommendedSecurity) → ℚ × ℤ × ℤ × ℚ → List (List Char) →
    List (List Char) × Option (ℚ × ℤ × ℤ × ℚ)
  | [], acc, out => (out, some acc)
  | (key, rsec) :: rest, (tdv, tdp, tap, tav), out =>
    let desiredpercent := rsec.percent
    let desiredvalue := networth * desiredpercent / 100
    match actual_holdings.lookup key with
    | none => (out, none)
    | some actual =>
      let actualpercent := percentValue actual networth
      mp3Loop networth actual_holdings rest
        (tdv + desiredvalue, tdp + desiredpercent, tap + actualpercent, tav + actual)
        (out ++ [mp3line key rsec.name (.i desiredpercent) (.i actualpercent)
          (.f desiredvalue) (.f actual)])

/-- `model_portfolio_3_report`.  `cash` is the module-level global.  The
`none` result models the `KeyError` crash on a target symbol that is
missing from `actual_holdings`. -/
def model_portfolio_3_report (networth cash : ℚ) (actual_holdings : List (List Char × ℚ)) :
    List (List Char) × Option Unit :=
  let header := [mp3Title, mp3_columns,
    mp3line "Symbol".data "Security Name".data (.s "Desired %".data) (.s "Actual %".data)
      (.s "Desired $".data) (.s "Actual $".data),
    mp3_columns]
  match mp3Loop networth actual_holdings MODEL_PORTFOLIO_III (0, 0, 0, 0) header with
  | (out, none) => (out, none)
  | (out, some (tdv, tdp, tap, tav)) =>
    let tav' := tav + cash
    let tdv' := tdv + cash
    let out2 := out ++ [mp3line "Cash".data [] (.s []) (.s []) (.f cash) (.f cash),
      mp3_columns,
      mp3line "Total".data [] (.i tdp) (.i tap) (.f tdv') (.f tav')] ++
      (if pyInt ((tav' + 5 / 1000) * 100) ≠ pyInt ((tdv' + 5 / 1000) * 100) then [reconWarn] else []) ++
      (if tdp ≠ 100 then [desiredPercentWarn] else []) ++
      (if tap ≠ 100 then [actualPercentWarn] else [])
    (out2, some ())

/-! ### Derived notions used by the statements below -/

/-- The cash value a line contributes: the matched group of
`CashParsePattern` sent through comma stripping and `float()`. -/
def cashVal (l : List Char) : Option ℚ :=
  (cashGroup l).bind fun g => pyFloat? (stripCommas g)

/-- A concrete parsed-holdings dictionary covering every Model Portfolio
III symbol (used by several witnesses below). -/
def tgtDict : List (List Char × Security) :=
  [("AKREX".data, ⟨"Akre Focus Fund".data, 5⟩),
   ("VDAIX".data, ⟨"Vanguard Dividend Appreciation".data, 5⟩),
   ("VFWIX".data, ⟨"Vanguard FTSE All-World".data, 10⟩),
   ("VTSMX".data, ⟨"Vanguard Total Stock Market".data, 30⟩),
   ("DLSNX".data, ⟨"DoubleLine Low Duration Bond".data, 20⟩),
   ("MWCRX".data, ⟨"MetroWest Unconstrained Bond".data, 20⟩),
   ("OSTIX".data, ⟨"Osterweis Strategic Income Fund".data, 10⟩)]

/-- The aggregated holdings produced from `tgtDict`. -/
def tgtAh : List (List Char × ℚ) :=
  [("AKREX".data, 5), ("VDAIX".data, 5), ("VFWIX".data, 10), ("VTSMX".data, 30),
   ("DLSNX".data, 20), ("MWCRX".data, 20), ("OSTIX".data, 10)]

/-- `pat` is a prefix of `s` (Boolean, used only in statements below). -/
def startsWithB : List Char → List Char → Bool
  | [], _ => true
  | _ :: _, [] => false
  | a :: pat, b :: s => a = b && startsWithB pat s

/-- `pat` occurs as a contiguous substring of `s` (Boolean, used only in
statements below). -/
def occursIn (pat : List Char) : List Char → Bool
  | [] => startsWithB pat []
  | c :: rest => startsWithB pat (c :: rest) || occursIn pat rest

/-- The holdings-report output for `tgtDict` with cash 50 (pinned for the C5 analysis). -/
def c5HoldingsOut : List (List Char) :=
  ["\n                          ACTUAL HOLDINGS AS OF 1/1/2018 \n".data,
   "------------------ ---------------------------------------- ---------- --- -----".data,
   "Symbol             Security Name                                 Value   % MPIII".data,
   "------------------ ---------------------------------------- ---------- --- -----".data,
   "AKREX              Akre Focus Fund                                5.00   5 AKREX".data,
   "VDAIX              Vanguard Dividend Appreciation                 5.00   5 VDAIX".data,
   "VFWIX              Vanguard FTSE All-World                       10.00  10 VFWIX".data,
   "VTSMX              Vanguard Total Stock Market                   30.00  30 VTSMX".data,
   "DLSNX              DoubleLine Low Duration Bond                  20.00  20 DLSNX".data,
   "MWCRX              MetroWest Unconstrained Bond                  20.00  20 MWCRX".data,
   "OSTIX              Osterweis Strategic Income Fund               10.00  10 OSTIX".data,
   "Cash                                                             50.00          ".data,
   "------------------ ---------------------------------------- ---------- --- -----".data,
   "Total                                                           150.00 100      ".data]

/-- The Model Portfolio III report output for `tgtAh` with net worth 100 and cash 50 (pinned for the C5 analysis). -/
def c5Mp3Out : List (List Char) :=
  ["\n                                MODEL PORTFOLIO III\n".data,
   "------ ----------------------------------- --------- -------- ------------- ------------".data,
   "Symbol Security Name                       Desired % Actual %     Desired $     Actual $".data,
   "------ ----------------------------------- --------- -------- ------------- ------------".data,
   "AKREX  Akre Focus Fund                             5        5          5.00         5.00".data,
   "VDAIX  Vanguard Dividend Appreciation              5        5          5.00         5.00".data,
   "VFWIX  Vanguard FTSE All-World                    10       10         10.00        10.00".data,
   "VTSMX  Vanguard Total Stock Market                30       30         30.00        30.00".data,
   "DLSNX  DoubleLine Low Duration Bond               20       20         20.00        20.00".data,
   "MWCRX  MetroWest Unconstrained Bond               20       20         20.00        20.00".data,
   "OSTIX  Osterweis Strategic Income Fund            10       10         10.00        10.00".data,
   "Cash                                                                  50.00        50.00".data,
   "------ ----------------------------------- --------- -------- ------------- ------------".data,
   "Total                                            100      100        150.00       150.00".data]

/-! ## Helper lemmas -/

theorem lookup_mem_keys {α β : Type} [BEq α] [LawfulBEq α] {l : List (α × β)} {a : α} {b : β}
    (h : l.lookup a = some b) : a ∈ l.map Prod.fst := by
  induction l with
  | nil => simp [List.lookup] at h
  | cons hd tl ih =>
    rcases hd with ⟨k, v⟩
    by_cases hk : a = k
    · simp [hk]
    · have hb : (a == k) = false := by simp [hk]
      simp [List.lookup, hb] at h
      simp [ih h]

theorem lookup_mem_values {α β : Type} [BEq α] [LawfulBEq α] {l : List (α × β)} {a : α} {b : β}
    (h : l.lookup a = some b) : b ∈ l.map Prod.snd := by
  induction l with
  | nil => simp [List.lookup] at h
  | cons hd tl ih =>
    rcases hd with ⟨k, v⟩
    by_cases hk : a = k
    · have hb : (a == k) = true := by simp [hk]
      simp [List.lookup, hb] at h
      simp [h]
    · have hb : (a == k) = false := by simp [hk]
      simp [List.lookup, hb] at h
      simp [ih h]

theorem lookup_isSome_mem_keys {α β : Type} [BEq α] [LawfulBEq α] {l : List (α × β)} {a : α}
    (h : (l.lookup a).isSome) : a ∈ l.map Prod.fst := by
  rcases hb : l.lookup a with _ | b
  · rw [hb] at h; simp at h
  · exact lookup_mem_keys hb

theorem getLast?_cons_of_getLast? {α : Type} {v : α} {L : List α} {c : α}
    (h : L.getLast? = some c) : (v :: L).getLast? = some c := by
  cases L with
  | nil => simp at h
  | cons x xs => rw [List.getLast?_cons_cons]; exact h

theorem mem_ite_nil {α : Type} (c : Prop) [Decidable c] (a : α) (l : List α) :
    (a ∈ if c then l else []) ↔ c ∧ a ∈ l := by
  split <;> simp_all

/-! ## C6 — percent-of-portfolio rounding -/

/-- C6 (counterexample): the claim says a holding's percent-of-portfolio is
held unrounded internally as `balance / netWorth * 100`.  For balance 1 and
net worth 3, the stored `Percent.value` is the integer 33, not `100/3`:
rounding happens inside `Percent.__init__`, not at display time. -/
theorem c6_percent_counterexample :
    ((percentValue 1 3 : ℤ) : ℚ) ≠ 1 / 3 * 100 ∧ percentValue 1 3 = 33 := by
  constructor
  · norm_num [percentValue, pyInt]
  · norm_num [percentValue, pyInt]

/-- C6 (amended): `Percent.value` is `int(balance / netWorth * 100 + 0.5)`,
the half-up rounding of the percent computed at construction time; the
stored integer is within half a percentage point of the exact
`balance / netWorth * 100`, and the display (`str`) shows this already
rounded integer. -/
theorem c6_percent_rounded_at_computation (n d : ℚ) (hn : 0 ≤ n) (hd : 0 < d) :
    |((percentValue n d : ℤ) : ℚ) - n / d * 100| ≤ 1 / 2 := by
  have hx : 0 ≤ n / d * 100 := by positivity
  have harg : 0 ≤ n / d * 100 + 1 / 2 := by linarith
  have hval : percentValue n d = ⌊n / d * 100 + 1 / 2⌋ := by
    unfold percentValue pyInt
    rw [if_pos harg]
  rw [hval]
  have h1 : ((⌊n / d * 100 + 1 / 2⌋ : ℤ) : ℚ) ≤ n / d * 100 + 1 / 2 := Int.floor_le _
  have h2 : n / d * 100 + 1 / 2 < ((⌊n / d * 100 + 1 / 2⌋ : ℤ) : ℚ) + 1 :=
    Int.lt_floor_add_one _
  rw [abs_le]
  constructor <;> linarith

/-- C6 witness: the amended theorem applied at balance 1, net worth 3. -/
theorem c6_percent_rounded_witness :
    |((percentValue 1 3 : ℤ) : ℚ) - 1 / 3 * 100| ≤ 1 / 2 :=
  c6_percent_rounded_at_computation 1 3 (by norm_num) (by norm_num)

/-! ## Concrete `float()` evaluations shared by several claims -/

theorem pyFloat_100 : pyFloat? (stripCommas "100.00".data) = some 100 := by
  have h1 : pyFloatParts? (stripCommas "100.00".data) = some (false, 100, 0, 2, 0) := by decide
  simp [pyFloat?, h1, ratOfParts]

theorem pyFloat_250 : pyFloat? (stripCommas "250.00".data) = some 250 := by
  have h1 : pyFloatParts? (stripCommas "250.00".data) = some (false, 250, 0, 2, 0) := by decide
  simp [pyFloat?, h1, ratOfParts]

theorem pyFloat_5 : pyFloat? (stripCommas "5.00".data) = some 5 := by
  have h1 : pyFloatParts? (stripCommas "5.00".data) = some (false, 5, 0, 2, 0) := by decide
  simp [pyFloat?, h1, ratOfParts]

theorem pyFloat_0 : pyFloat? (stripCommas "0.00".data) = some 0 := by
  have h1 : pyFloatParts? (stripCommas "0.00".data) = some (false, 0, 0, 2, 0) := by decide
  simp [pyFloat?, h1, ratOfParts]

/-! ## C1 — unrecognized lines and the dead `Unexpected line` branch -/

/-- C1 (code evaluated at the failing input): `"garbage line"` matches none
of the title, cash and security patterns and none of the `IGNORE_PATTERNS`,
yet `read_and_parse_input_file` silently skips it and succeeds.  The
`print "Unexpected line" / exit()` branch is dead code: the `for pattern in
IGNORE_PATTERNS` loop leaves `pattern` bound to the *last* pattern when
nothing matched, so `pattern is None` can never hold for the non-empty
pattern list. -/
theorem c1_unexpected_line_silently_skipped :
    titleMatch "garbage line".data = none ∧
    cashGroup "garbage line".data = none ∧
    securityGroups "garbage line".data = none ∧
    (IGNORE_PATTERNS.all fun p => !(reMatch p "garbage line".data).isSome) = true ∧
    read_and_parse_input_file ["Portfolio Value - As of 1/2/2018".data,
      "\t-Cash-\t100.00".data, "garbage line".data] =
      .ok ("1/2/2018".data, 100, []) := by
  have t1 : titleMatch "Portfolio Value - As of 1/2/2018".data = some "1/2/2018".data := by
    decide
  have t2 : titleMatch "\t-Cash-\t100.00".data = none := by decide
  have c2 : cashGroup "\t-Cash-\t100.00".data = some "100.00".data := by decide
  have t3 : titleMatch "garbage line".data = none := by decide
  have c3 : cashGroup "garbage line".data = none := by decide
  have s3 : securityGroups "garbage line".data = none := by decide
  have i3 : (ignoreLoop IGNORE_PATTERNS "garbage line".data).isNone = false := by decide
  have f2 : pyFloat? (stripCommas ['1', '0', '0', '.', '0', '0']) = some 100 := pyFloat_100
  refine ⟨t3, c3, s3, by decide, ?_⟩
  simp [read_and_parse_input_file, parseLines, parseLine, t1, t2, c2, f2, t3, c3, s3, i3]

/-! ## C3 — zero-share security lines -/

/-- C3 (counterexample): a security line with shares `0.000`, non-empty
symbol `VTSMX` and non-zero balance `5.00` is *stored* by the parser: no
code inspects the shares group.  The claim that such a line is discarded is
false. -/
theorem c3_zero_share_line_stored :
    securityGroups "\tFoo\tVTSMX\t0.000\t1.000\t\t5.00\t0.00\t5.00".data =
      some ("Foo".data, "VTSMX".data, "5.00".data) ∧
    read_and_parse_input_file ["Portfolio Value - As of 1/2/2018".data,
      "\t-Cash-\t100.00".data, "\tFoo\tVTSMX\t0.000\t1.000\t\t5.00\t0.00\t5.00".data] =
      .ok ("1/2/2018".data, 100, [("VTSMX".data, ⟨"Foo".data, 5⟩)]) := by
  have t1 : titleMatch "Portfolio Value - As of 1/2/2018".data = some "1/2/2018".data := by
    decide
  have t2 : titleMatch "\t-Cash-\t100.00".data = none := by decide
  have c2 : cashGroup "\t-Cash-\t100.00".data = some "100.00".data := by decide
  have t3 : titleMatch "\tFoo\tVTSMX\t0.000\t1.000\t\t5.00\t0.00\t5.00".data = none := by decide
  have c3 : cashGroup "\tFoo\tVTSMX\t0.000\t1.000\t\t5.00\t0.00\t5.00".data = none := by decide
  have s3 : securityGroups "\tFoo\tVTSMX\t0.000\t1.000\t\t5.00\t0.00\t5.00".data =
      some ("Foo".data, "VTSMX".data, "5.00".data) := by decide
  have f2 : pyFloat? (stripCommas ['1', '0', '0', '.', '0', '0']) = some 100 := pyFloat_100
  have f3 : pyFloat? (stripCommas ['5', '.', '0', '0']) = some 5 := pyFloat_5
  refine ⟨s3, ?_⟩
  simp [read_and_parse_input_file, parseLines, parseLine, t1, t2, c2, f2, t3, c3, s3, f3,
    dinsert]

/-- C3 (amended): the parser never inspects the shares field.  Every line
matched by `SecurityParsePattern` whose symbol group is non-empty (and
whose balance group survives `float()`) is stored under its symbol — lines
with shares `0.000` included; only empty-symbol lines are discarded. -/
theorem c3_security_store_ignores_shares (st : PState) (l nm sym bal : List Char) (v : ℚ)
    (ht : titleMatch l = none) (hc : cashGroup l = none)
    (hs : securityGroups l = some (nm, sym, bal))
    (hv : pyFloat? (stripCommas bal) = some v) (hsym : sym ≠ []) :
    parseLine st l = .ok { st with dict := dinsert st.dict sym ⟨nm, v⟩ } := by
  simp [parseLine, ht, hc, hs, hv, hsym]

/-- C3 witness: the amended theorem applied to the zero-share line. -/
theorem c3_security_store_ignores_shares_witness :
    parseLine ⟨none, none, []⟩ "\tFoo\tVTSMX\t0.000\t1.000\t\t5.00\t0.00\t5.00".data =
      .ok ⟨none, none, [("VTSMX".data, ⟨"Foo".data, 5⟩)]⟩ :=
  c3_security_store_ignores_shares ⟨none, none, []⟩ _ "Foo".data "VTSMX".data "5.00".data 5
    (by decide) (by decide) (by decide) pyFloat_5 (by decide)

/-! ## C8 — empty-symbol security lines -/

/-- C8 (counterexample): a security line whose symbol group is empty is not
always silently discarded.  The balance pattern's unescaped dot lets the
group `1X00` through, and `float('1X00')` raises `ValueError` inside
`SecurityParsePattern.match` — *before* the empty-symbol check — so the
parse aborts instead of continuing. -/
theorem c8_empty_symbol_line_can_crash :
    securityGroups "\tFoo\t\t1.000\t1.000\t\t1.00\t1.00\t1X00".data =
      some ("Foo".data, [], "1X00".data) ∧
    read_and_parse_input_file ["Portfolio Value - As of 1/2/2018".data,
      "\t-Cash-\t100.00".data, "\tFoo\t\t1.000\t1.000\t\t1.00\t1.00\t1X00".data] =
      .error .valueError := by
  have t1 : titleMatch "Portfolio Value - As of 1/2/2018".data = some "1/2/2018".data := by
    decide
  have t2 : titleMatch "\t-Cash-\t100.00".data = none := by decide
  have c2 : cashGroup "\t-Cash-\t100.00".data = some "100.00".data := by decide
  have t3 : titleMatch "\tFoo\t\t1.000\t1.000\t\t1.00\t1.00\t1X00".data = none := by decide
  have c3 : cashGroup "\tFoo\t\t1.000\t1.000\t\t1.00\t1.00\t1X00".data = none := by decide
  have s3 : securityGroups "\tFoo\t\t1.000\t1.000\t\t1.00\t1.00\t1X00".data =
      some ("Foo".data, [], "1X00".data) := by decide
  have f2 : pyFloat? (stripCommas ['1', '0', '0', '.', '0', '0']) = some 100 := pyFloat_100
  have f3 : pyFloat? (stripCommas "1X00".data) = none := by
    have h1 : pyFloatParts? (stripCommas "1X00".data) = none := by decide
    simp [pyFloat?, h1]
  have f3' : pyFloat? (stripCommas ['1', 'X', '0', '0']) = none := f3
  refine ⟨s3, ?_⟩
  simp [read_and_parse_input_file, parseLines, parseLine, t1, t2, c2, f2, t3, c3, s3, f3']

/-- C8 (amended): a security line with an empty symbol group whose balance
group converts under `float()` is silently discarded: the state is
unchanged and the parse continues without error. -/
theorem c8_empty_symbol_discarded (st : PState) (l nm bal : List Char) (v : ℚ)
    (ht : titleMatch l = none) (hc : cashGroup l = none)
    (hs : securityGroups l = some (nm, [], bal))
    (hv : pyFloat? (stripCommas bal) = some v) :
    parseLine st l = .ok st := by
  simp [parseLine, ht, hc, hs, hv]

/-- C8 witness: the amended theorem applied to a money-market line with an
empty symbol and balance `0.00`. -/
theorem c8_empty_symbol_discarded_witness :
    parseLine ⟨none, none, []⟩ "\tFoo\t\t1.000\t1.000\t\t1.00\t0.00\t0.00".data =
      .ok ⟨none, none, []⟩ :=
  c8_empty_symbol_discarded ⟨none, none, []⟩ _ "Foo".data "0.00".data 0
    (by decide) (by decide) (by decide) pyFloat_0

/-! ## Parser-step characterization (used by C7 and C10) -/

theorem parseLine_ok_state (st : PState) (l : List Char) (st' : PState)
    (h : parseLine st l = .ok st') :
    (∃ d, titleMatch l = some d ∧ st' = { st with date := some d }) ∨
    (∃ v, titleMatch l = none ∧ cashVal l = some v ∧ st' = { st with cash := some v }) ∨
    (titleMatch l = none ∧ cashGroup l = none ∧ st'.date = st.date ∧ st'.cash = st.cash) := by
  rcases ht : titleMatch l with _ | d
  · rcases hc : cashGroup l with _ | g
    · rcases hs : securityGroups l with _ | ⟨nm, sym, bal⟩
      · rcases hi : (ignoreLoop IGNORE_PATTERNS l).isNone
        · simp only [parseLine, ht, hc, hs, hi, Bool.false_eq_true, if_false, ite_false] at h
          rw [Except.ok.injEq] at h
          subst h
          exact Or.inr (Or.inr ⟨rfl, rfl, rfl, rfl⟩)
        · simp only [parseLine, ht, hc, hs, hi] at h
          exact Except.noConfusion h
      · rcases hv : pyFloat? (stripCommas bal) with _ | v
        · simp only [parseLine, ht, hc, hs, hv] at h
          exact Except.noConfusion h
        · by_cases hsym : sym = [] <;>
            simp only [parseLine, ht, hc, hs, hv, hsym, if_true, if_false, ite_true,
              ite_false, reduceIte] at h <;>
          · rw [Except.ok.injEq] at h
            subst h
            exact Or.inr (Or.inr ⟨rfl, rfl, rfl, rfl⟩)
    · rcases hv : pyFloat? (stripCommas g) with _ | v
      · simp only [parseLine, ht, hc, hv] at h
        exact Except.noConfusion h
      · simp only [parseLine, ht, hc, hv] at h
        rw [Except.ok.injEq] at h
        subst h
        exact Or.inr (Or.inl ⟨v, rfl, by simp [cashVal, hc, hv], rfl⟩)
  · simp only [parseLine, ht] at h
    rw [Except.ok.injEq] at h
    subst h
    exact Or.inl ⟨d, rfl, rfl⟩

theorem parseLines_ok_title_exists (lines : List (List Char)) :
    ∀ st d c dict, parseLines st lines = .ok (d, c, dict) → st.date = none →
      ∃ l ∈ lines, (titleMatch l).isSome := by
  induction lines with
  | nil =>
    intro st d c dict h hdate
    simp [parseLines, hdate] at h
  | cons l ls ih =>
    intro st d c dict h hdate
    unfold parseLines at h
    rcases hp : parseLine st l with e | st' <;> rw [hp] at h
    case error => cases h
    rcases parseLine_ok_state st l st' hp with ⟨dd, ht, _⟩ | ⟨v, ht, _, hst⟩ | ⟨ht, _, hd, _⟩
    · exact ⟨l, by simp, by simp [ht]⟩
    · have : st'.date = none := by rw [hst]; exact hdate
      obtain ⟨l', hl', hsome⟩ := ih st' d c dict h this
      exact ⟨l', by simp [hl'], hsome⟩
    · have : st'.date = none := by rw [hd]; exact hdate
      obtain ⟨l', hl', hsome⟩ := ih st' d c dict h this
      exact ⟨l', by simp [hl'], hsome⟩

theorem parseLines_ok_cash_exists (lines : List (List Char)) :
    ∀ st d c dict, parseLines st lines = .ok (d, c, dict) → st.cash = none →
      ∃ l ∈ lines, (cashGroup l).isSome := by
  induction lines with
  | nil =>
    intro st d c dict h hcash
    rcases hd : st.date with _ | dd <;> simp [parseLines, hd, hcash] at h
  | cons l ls ih =>
    intro st d c dict h hcash
    unfold parseLines at h
    rcases hp : parseLine st l with e | st' <;> rw [hp] at h
    case error => cases h
    rcases parseLine_ok_state st l st' hp with ⟨dd, ht, hst⟩ | ⟨v, ht, hv, hst⟩ | ⟨ht, hc, _, hcs⟩
    · have : st'.cash = none := by rw [hst]; exact hcash
      obtain ⟨l', hl', hsome⟩ := ih st' d c dict h this
      exact ⟨l', by simp [hl'], hsome⟩
    · have : (cashGroup l).isSome := by
        rcases hcg : cashGroup l with _ | g
        · simp [cashVal, hcg] at hv
        · simp
      exact ⟨l, by simp, this⟩
    · have : st'.cash = none := by rw [hcs]; exact hcash
      obtain ⟨l', hl', hsome⟩ := ih st' d c dict h this
      exact ⟨l', by simp [hl'], hsome⟩

/-! ## C10 — missing title or cash line -/

/-- C10: when no line of the input matches the title pattern (or none
matches the cash pattern), `read_and_parse_input_file` cannot return a
parsed report: the local `date` (resp. `cash_value`) is never assigned and
the `return` statement raises, so the result is an error. -/
theorem c10_missing_title_or_cash_errors (lines : List (List Char))
    (h : (∀ l ∈ lines, titleMatch l = none) ∨ (∀ l ∈ lines, cashGroup l = none)) :
    ∃ e, read_and_parse_input_file lines = .error e := by
  rcases hres : read_and_parse_input_file lines with e | r
  · exact ⟨e, rfl⟩
  exfalso
  rcases r with ⟨d, c, dict⟩
  unfold read_and_parse_input_file at hres
  rcases h with h | h
  · obtain ⟨l, hl, hsome⟩ := parseLines_ok_title_exists lines ⟨none, none, []⟩ d c dict hres rfl
    rw [h l hl] at hsome
    simp at hsome
  · obtain ⟨l, hl, hsome⟩ := parseLines_ok_cash_exists lines ⟨none, none, []⟩ d c dict hres rfl
    rw [h l hl] at hsome
    simp at hsome

/-- C10 witness: an input with a cash line but no title line errors. -/
theorem c10_missing_title_or_cash_errors_witness :
    ∃ e, read_and_parse_input_file ["\t-Cash-\t100.00".data] = .error e :=
  c10_missing_title_or_cash_errors _ (Or.inl (by decide))

/-! ## Pattern-head disjointness: a line matched by the cash pattern starts
with a tab, on which the title pattern cannot match -/

theorem titleMatch_tab (r : List Char) : titleMatch ('\t' :: r) = none := by
  have hd : "Portfolio Value - As of ".data = 'P' :: "ortfolio Value - As of ".data := rfl
  obtain ⟨m, hm⟩ : ∃ m, (('\t' :: r).length + 2) * 1000 = m + 3 :=
    ⟨(('\t' :: r).length + 2) * 1000 - 3, by simp; omega⟩
  simp [titleMatch, reMatch, hm, titleRE, litRE, hd, reRun, chrRE]

theorem cashGroup_tab (l g : List Char) (h : cashGroup l = some g) : ∃ r, l = '\t' :: r := by
  rcases l with _ | ⟨c, r⟩
  · have hnil : cashGroup ([] : List Char) = none := by decide
    rw [hnil] at h
    cases h
  · refine ⟨r, ?_⟩
    by_cases hc : c = '\t'
    · rw [hc]
    · exfalso
      obtain ⟨m, hm⟩ : ∃ m, ((c :: r).length + 2) * 1000 = m + 3 :=
        ⟨((c :: r).length + 2) * 1000 - 3, by simp; omega⟩
      simp [cashGroup, reMatch, hm, cashRE, plusRE, tabRE, chrRE, reRun, hc] at h

theorem cashGroup_title_none (l g : List Char) (h : cashGroup l = some g) :
    titleMatch l = none := by
  obtain ⟨r, rfl⟩ := cashGroup_tab l g h
  exact titleMatch_tab r

/-! ## C7 — last cash line wins -/

theorem parseLines_cash_last (lines : List (List Char)) :
    ∀ st d c dict, parseLines st lines = .ok (d, c, dict) →
      (lines.filterMap cashVal).getLast? = some c ∨
      ((lines.filterMap cashVal) = [] ∧ st.cash = some c) := by
  induction lines with
  | nil =>
    intro st d c dict h
    right
    refine ⟨by simp, ?_⟩
    rcases hd : st.date with _ | dd <;> rcases hc : st.cash with _ | cc <;>
      simp [parseLines, hd, hc] at h
    exact congrArg some h.2.1
  | cons l ls ih =>
    intro st d c dict h
    unfold parseLines at h
    rcases hp : parseLine st l with e | st' <;> rw [hp] at h
    · exact absurd h (by simp)
    rcases parseLine_ok_state st l st' hp with ⟨dd, ht, hst⟩ | ⟨v, ht, hv, hst⟩ | ⟨ht, hcg, hd2, hc2⟩
    · have hcv : cashVal l = none := by
        rcases hcv : cashVal l with _ | v
        · rfl
        · exfalso
          rcases hg : cashGroup l with _ | g
          · simp [cashVal, hg] at hcv
          · rw [cashGroup_title_none l g hg] at ht
            cases ht
      rw [List.filterMap_cons, hcv]
      rcases ih st' d c dict h with h1 | ⟨h1, h2⟩
      · exact Or.inl h1
      · refine Or.inr ⟨h1, ?_⟩
        rw [hst] at h2
        exact h2
    · rw [List.filterMap_cons, hv]
      rcases ih st' d c dict h with h1 | ⟨h1, h2⟩
      · exact Or.inl (getLast?_cons_of_getLast? h1)
      · rw [h1, hst] at *
        simp at h2
        subst h2
        simp
    · have hcv : cashVal l = none := by simp [cashVal, hcg]
      rw [List.filterMap_cons, hcv]
      rcases ih st' d c dict h with h1 | ⟨h1, h2⟩
      · exact Or.inl h1
      · refine Or.inr ⟨h1, ?_⟩
        rw [← hc2]
        exact h2

/-- C7: whenever `read_and_parse_input_file` returns a report, its cash
value is the value of the *last* line (in input order) matched by
`CashParsePattern`: each cash match overwrites the previous value. -/
theorem c7_last_cash_wins (lines : List (List Char)) (d : List Char) (c : ℚ)
    (dict : List (List Char × Security))
    (h : read_and_parse_input_file lines = .ok (d, c, dict)) :
    (lines.filterMap cashVal).getLast? = some c := by
  unfold read_and_parse_input_file at h
  rcases parseLines_cash_last lines _ d c dict h with h1 | ⟨h1, h2⟩
  · exact h1
  · cases h2

/-- C7 witness: two cash lines, `100.00` then `250.00`, yield final cash
`250.00`. -/
theorem c7_last_cash_wins_witness :
    read_and_parse_input_file ["Portfolio Value - As of 1/2/2018".data,
      "\t-Cash-\t100.00".data, "\t-Cash-\t250.00".data] = .ok ("1/2/2018".data, 250, []) ∧
    (["Portfolio Value - As of 1/2/2018".data, "\t-Cash-\t100.00".data,
      "\t-Cash-\t250.00".data].filterMap cashVal).getLast? = some 250 := by
  have t1 : titleMatch "Portfolio Value - As of 1/2/2018".data = some "1/2/2018".data := by
    decide
  have t2 : titleMatch "\t-Cash-\t100.00".data = none := by decide
  have c2 : cashGroup "\t-Cash-\t100.00".data = some "100.00".data := by decide
  have t3 : titleMatch "\t-Cash-\t250.00".data = none := by decide
  have c3 : cashGroup "\t-Cash-\t250.00".data = some "250.00".data := by decide
  have f2 : pyFloat? (stripCommas ['1', '0', '0', '.', '0', '0']) = some 100 := pyFloat_100
  have f3 : pyFloat? (stripCommas ['2', '5', '0', '.', '0', '0']) = some 250 := pyFloat_250
  have hok : read_and_parse_input_file ["Portfolio Value - As of 1/2/2018".data,
      "\t-Cash-\t100.00".data, "\t-Cash-\t250.00".data] = .ok ("1/2/2018".data, 250, []) := by
    simp [read_and_parse_input_file, parseLines, parseLine, t1, t2, c2, f2, t3, c3, f3]
  exact ⟨hok, c7_last_cash_wins _ _ _ _ hok⟩

/-! ## C2 — keys of the aggregated holdings -/

theorem dadd_keys (d : List (List Char × ℚ)) (k : List Char) (v : ℚ) (k0 : List Char) :
    k0 ∈ (dadd d k v).map Prod.fst ↔ k0 ∈ d.map Prod.fst ∨ k0 = k := by
  induction d with
  | nil => simp [dadd]
  | cons hd tl ih =>
    rcases hd with ⟨k', v'⟩
    by_cases hk : k' = k
    · subst hk
      simp [dadd]
      tauto
    · simp [dadd, hk, ih]
      tauto

theorem map_key_mem_targets (s k : List Char) (h : map_key_to_mp3 s = some k) :
    k ∈ MODEL_PORTFOLIO_III.map Prod.fst := by
  unfold map_key_to_mp3 at h
  by_cases hs : (MODEL_PORTFOLIO_III.lookup s).isSome
  · rw [if_pos hs] at h
    injection h with h
    subst h
    exact lookup_isSome_mem_keys hs
  · rw [if_neg hs] at h
    rcases hm : MAP_SECURITY.lookup s with _ | v <;> rw [hm] at h
    · cases h
    · injection h with h
      subst h
      have hv := lookup_mem_values hm
      have hall : ∀ x ∈ MAP_SECURITY.map Prod.snd, x ∈ MODEL_PORTFOLIO_III.map Prod.fst := by
        decide
      exact hall _ hv

theorem holdingsLoop_keys (networth : ℚ) (entries : List (List Char × Security)) :
    ∀ ah tap out out' ah' tap',
      holdingsLoop networth entries ah tap out = (out', some (ah', tap')) →
      ∀ k0, k0 ∈ ah'.map Prod.fst ↔
        (k0 ∈ ah.map Prod.fst ∨ ∃ s ∈ entries.map Prod.fst, map_key_to_mp3 s = some k0) := by
  induction entries with
  | nil =>
    intro ah tap out out' ah' tap' h k0
    simp [holdingsLoop] at h
    simp [← h.2.1]
  | cons e rest ih =>
    rcases e with ⟨key, sec⟩
    intro ah tap out out' ah' tap' h k0
    rcases hm : map_key_to_mp3 key with _ | mk
    · simp [holdingsLoop, hm] at h
    · simp only [holdingsLoop, hm] at h
      rw [ih (dadd ah mk sec.balance) _ _ _ _ _ h k0, dadd_keys]
      constructor
      · rintro ((h1 | h1) | ⟨s, hs1, hs2⟩)
        · exact Or.inl h1
        · right
          refine ⟨key, List.mem_map_of_mem Prod.fst (List.mem_cons_self _ _), ?_⟩
          rw [hm]
          exact congrArg some h1.symm
        · right
          refine ⟨s, ?_, hs2⟩
          rw [List.map_cons]
          exact List.mem_cons_of_mem _ hs1
      · rintro (h1 | ⟨s, hs1, hs2⟩)
        · exact Or.inl (Or.inl h1)
        · rcases List.mem_cons.mp hs1 with rfl | hs1'
          · rw [hm] at hs2
            injection hs2 with hs2
            exact Or.inl (Or.inr hs2.symm)
          · exact Or.inr ⟨s, hs1', hs2⟩

theorem current_holdings_report_res (date : List Char) (cash : ℚ)
    (security_dict : List (List Char × Security)) (nw : ℚ) (ah : List (List Char × ℚ))
    (h : (current_holdings_report date cash security_dict).2 = some (nw, ah)) :
    ∃ out tap, holdingsLoop ((security_dict.map fun e => e.2.balance).sum) security_dict [] 0
        [actualHoldingsTitle date, holdings_columns,
         holdings_line "Symbol".data "Security Name".data (.s "Value".data) (.s "%".data)
           "MPIII".data, holdings_columns] = (out, some (ah, tap)) := by
  simp only [current_holdings_report] at h
  rcases hl : holdingsLoop ((security_dict.map fun e => e.2.balance).sum) security_dict [] 0
      [actualHoldingsTitle date, holdings_columns,
       holdings_line "Symbol".data "Security Name".data (.s "Value".data) (.s "%".data)
         "MPIII".data, holdings_columns] with ⟨out, res⟩
  rw [hl] at h
  rcases res with _ | ⟨ah0, tap⟩
  · simp at h
  · simp at h
    exact ⟨out, tap, by rw [← h.2]; exact hl⟩

/-- C2 (amended): the keys of `actual_holdings` are exactly the
`map_key_to_mp3`-images of the parsed symbols — a *subset* of the Model
Portfolio III symbols.  A target symbol to which no holding resolves is
absent (and `model_portfolio_3_report` then dies with a `KeyError`), not
present with balance 0. -/
theorem c2_aggregated_keys (date : List Char) (cash : ℚ)
    (security_dict : List (List Char × Security)) (nw : ℚ) (ah : List (List Char × ℚ))
    (h : (current_holdings_report date cash security_dict).2 = some (nw, ah)) :
    (∀ k, k ∈ ah.map Prod.fst ↔ ∃ s ∈ security_dict.map Prod.fst, map_key_to_mp3 s = some k) ∧
    (∀ k ∈ ah.map Prod.fst, k ∈ MODEL_PORTFOLIO_III.map Prod.fst) := by
  obtain ⟨out, tap, hl⟩ := current_holdings_report_res date cash security_dict nw ah h
  have hk := holdingsLoop_keys _ _ _ _ _ _ _ _ hl
  constructor
  · intro k
    rw [hk k]
    simp only [List.map_nil, List.not_mem_nil, false_or]
  · intro k hkm
    rcases (hk k).mp hkm with h1 | ⟨s, _, hs2⟩
    · rw [List.map_nil] at h1
      exact absurd h1 (List.not_mem_nil k)
    · exact map_key_mem_targets s k hs2

theorem vtsmx_only_report_res :
    (current_holdings_report "1/1/2018".data 0 [("VTSMX".data, ⟨"Foo".data, 10⟩)]).2 =
      some (10, [("VTSMX".data, 10)]) := by
  have hm : map_key_to_mp3 "VTSMX".data = some "VTSMX".data := by decide
  simp [current_holdings_report, holdingsLoop, hm, dadd]

/-- C2 (counterexample): with a single parsed holding `VTSMX`, the
aggregated mapping is `{VTSMX: 10}`; the target symbol `AKREX` has no
entry at all, refuting the claim that every TargetAllocation symbol is a
key. -/
theorem c2_missing_target_counterexample :
    (current_holdings_report "1/1/2018".data 0 [("VTSMX".data, ⟨"Foo".data, 10⟩)]).2 =
      some (10, [("VTSMX".data, 10)]) ∧
    "AKREX".data ∈ MODEL_PORTFOLIO_III.map Prod.fst ∧
    "AKREX".data ∉ ([("VTSMX".data, (10 : ℚ))]).map Prod.fst :=
  ⟨vtsmx_only_report_res, by decide, by decide⟩

/-- C2 witness: the amended theorem applied to the single-holding report. -/
theorem c2_aggregated_keys_witness :
    (current_holdings_report "1/1/2018".data 0 [("VTSMX".data, ⟨"Foo".data, 10⟩)]).2 =
      some (10, [("VTSMX".data, 10)]) ∧
    ("AKREX".data ∈ ([("VTSMX".data, (10 : ℚ))]).map Prod.fst ↔
      ∃ s ∈ ([("VTSMX".data, (⟨"Foo".data, 10⟩ : Security))]).map Prod.fst,
        map_key_to_mp3 s = some "AKREX".data) :=
  ⟨vtsmx_only_report_res,
    (c2_aggregated_keys "1/1/2018".data 0 _ 10 _ vtsmx_only_report_res).1
      "AKREX".data⟩

/-! ## C4 — unmapped symbols abort, but after output was already printed -/

theorem holdingsLoop_unmapped (networth : ℚ) (entries : List (List Char × Security)) :
    ∀ ah tap out, (∃ s ∈ entries.map Prod.fst, map_key_to_mp3 s = none) →
      (holdingsLoop networth entries ah tap out).2 = none ∧
      ∃ s, s ∈ entries.map Prod.fst ∧ map_key_to_mp3 s = none ∧
        noMapLine s ∈ (holdingsLoop networth entries ah tap out).1 := by
  induction entries with
  | nil =>
    intro ah tap out h
    rcases h with ⟨s, hs, _⟩
    rw [List.map_nil] at hs
    exact absurd hs (List.not_mem_nil s)
  | cons e rest ih =>
    rcases e with ⟨key, sec⟩
    intro ah tap out h
    rcases hm : map_key_to_mp3 key with _ | mk
    · refine ⟨by simp [holdingsLoop, hm], key,
        List.mem_map_of_mem Prod.fst (List.mem_cons_self _ _), hm, ?_⟩
      simp [holdingsLoop, hm]
    · have h' : ∃ s ∈ rest.map Prod.fst, map_key_to_mp3 s = none := by
        rcases h with ⟨s, hs, hsn⟩
        rw [List.map_cons] at hs
        rcases List.mem_cons.mp hs with rfl | hs'
        · rw [hm] at hsn
          cases hsn
        · exact ⟨s, hs', hsn⟩
      obtain ⟨h1, s, hs1, hs2, hs3⟩ := ih (dadd ah mk sec.balance)
        (tap + percentValue sec.balance networth)
        (out ++ [holdings_line key sec.name (.f sec.balance) (.i (percentValue sec.balance networth)) mk]) h'
      refine ⟨?_, s, ?_, hs2, ?_⟩
      · simp only [holdingsLoop, hm]
        exact h1
      · rw [List.map_cons]
        exact List.mem_cons_of_mem _ hs1
      · simp only [holdingsLoop, hm]
        exact hs3

/-- C4 (amended): a parsed holding whose symbol is neither a target symbol
nor an alias key makes the run abort (`exit()` in `map_key_to_mp3`) with
the `No map for symbol` line naming an unmapped symbol — but the report
header (and rows for holdings processed earlier) have already been
printed, so partial report output *is* produced. -/
theorem c4_unmapped_aborts_after_output (date : List Char) (cash : ℚ)
    (security_dict : List (List Char × Security))
    (h : ∃ s ∈ security_dict.map Prod.fst, map_key_to_mp3 s = none) :
    (current_holdings_report date cash security_dict).2 = none ∧
    ∃ s, s ∈ security_dict.map Prod.fst ∧ map_key_to_mp3 s = none ∧
      noMapLine s ∈ (current_holdings_report date cash security_dict).1 := by
  obtain ⟨h1, s, hs1, hs2, hs3⟩ := holdingsLoop_unmapped
    ((security_dict.map fun e => e.2.balance).sum) security_dict [] 0
    [actualHoldingsTitle date, holdings_columns,
     holdings_line "Symbol".data "Security Name".data (.s "Value".data) (.s "%".data)
       "MPIII".data, holdings_columns] h
  rcases hl : holdingsLoop ((security_dict.map fun e => e.2.balance).sum) security_dict [] 0
      [actualHoldingsTitle date, holdings_columns,
       holdings_line "Symbol".data "Security Name".data (.s "Value".data) (.s "%".data)
         "MPIII".data, holdings_columns] with ⟨out, res⟩
  rw [hl] at h1 hs3
  rcases res with _ | r
  · refine ⟨?_, s, hs1, hs2, ?_⟩
    · simp [current_holdings_report, hl]
    · simp only [current_holdings_report, hl]
      simpa using hs3
  · cases h1

/-- C4 (counterexample): with the single unmapped holding `ZZZZ`, the
aborted run's output is not empty: it already contains the four header
lines of the holdings report, followed by the `No map for symbol ZZZZ`
line. -/
theorem c4_partial_output_counterexample :
    (current_holdings_report "1/1/2018".data 0 [("ZZZZ".data, ⟨"Mystery Fund".data, 10⟩)]).1 =
      [actualHoldingsTitle "1/1/2018".data, holdings_columns,
       holdings_line "Symbol".data "Security Name".data (.s "Value".data) (.s "%".data)
         "MPIII".data, holdings_columns, noMapLine "ZZZZ".data] ∧
    (current_holdings_report "1/1/2018".data 0 [("ZZZZ".data, ⟨"Mystery Fund".data, 10⟩)]).2 =
      none ∧
    (current_holdings_report "1/1/2018".data 0 [("ZZZZ".data, ⟨"Mystery Fund".data, 10⟩)]).1 ≠
      [] := by
  have hm : map_key_to_mp3 "ZZZZ".data = none := by decide
  refine ⟨?_, ?_, ?_⟩ <;> simp [current_holdings_report, holdingsLoop, hm]

/-- C4 witness: the amended theorem applied to the `ZZZZ` holding. -/
theorem c4_unmapped_aborts_witness :
    (current_holdings_report "1/1/2018".data 0 [("ZZZZ".data, ⟨"Mystery Fund".data, 10⟩)]).2 =
      none :=
  (c4_unmapped_aborts_after_output "1/1/2018".data 0
    [("ZZZZ".data, ⟨"Mystery Fund".data, 10⟩)]
    ⟨"ZZZZ".data, by decide, by decide⟩).1

/-! ## C9 — the reconciliation check is diagnostic and non-fatal -/

/-- C9: with every target symbol present in `actual_holdings`,
`model_portfolio_3_report` always completes (returns normally) and emits
the report; the reconciliation warning line is printed *iff* the totals
disagree under the code's cent-level comparison `int((x + 0.005) * 100)` —
i.e. iff total actual value (sum of the aggregated holdings plus cash) and
total desired value (sum of the desired dollar values plus cash) differ
after half-cent rounding to whole cents.  When they agree at that
tolerance, no warning is printed; in both cases the run completes. -/
theorem c9_reconciliation_nonfatal (networth cash vA vB vC vD vE vF vG : ℚ)
    (ah : List (List Char × ℚ))
    (hA : ah.lookup "AKREX".data = some vA) (hB : ah.lookup "VDAIX".data = some vB)
    (hC : ah.lookup "VFWIX".data = some vC) (hD : ah.lookup "VTSMX".data = some vD)
    (hE : ah.lookup "DLSNX".data = some vE) (hF : ah.lookup "MWCRX".data = some vF)
    (hG : ah.lookup "OSTIX".data = some vG) :
    (model_portfolio_3_report networth cash ah).2 = some () ∧
    mp3Title ∈ (model_portfolio_3_report networth cash ah).1 ∧
    ((reconWarn ∈ (model_portfolio_3_report networth cash ah).1) ↔
      pyInt ((vA + vB + vC + vD + vE + vF + vG + cash + 5 / 1000) * 100) ≠
      pyInt ((networth * 5 / 100 + networth * 5 / 100 + networth * 10 / 100 +
        networth * 30 / 100 + networth * 20 / 100 + networth * 20 / 100 +
        networth * 10 / 100 + cash + 5 / 1000) * 100)) := by
  refine ⟨?_, ?_, ?_⟩
  · simp [model_portfolio_3_report, mp3Loop, MODEL_PORTFOLIO_III, hA, hB, hC, hD, hE, hF, hG]
  · simp [model_portfolio_3_report, mp3Loop, MODEL_PORTFOLIO_III, hA, hB, hC, hD, hE, hF, hG]
  · have hmain : (reconWarn ∈ (model_portfolio_3_report networth cash ah).1) ↔
        pyInt ((0 + vA + vB + vC + vD + vE + vF + vG + cash + 5 / 1000) * 100) ≠
        pyInt ((0 + networth * 5 / 100 + networth * 5 / 100 + networth * 10 / 100 +
          networth * 30 / 100 + networth * 20 / 100 + networth * 20 / 100 +
          networth * 10 / 100 + cash + 5 / 1000) * 100) := by
      simp [model_portfolio_3_report, mp3Loop, MODEL_PORTFOLIO_III, hA, hB, hC, hD, hE, hF,
        hG, mp3line, mp3_columns, mp3Title, joinSpace, padEnd, padTo, pyValStr, reconWarn,
        desiredPercentWarn, actualPercentWarn, mem_ite_nil, List.intercalate]
    rw [hmain,
      show ((0 + vA + vB + vC + vD + vE + vF + vG + cash + 5 / 1000) * 100 : ℚ) =
        (vA + vB + vC + vD + vE + vF + vG + cash + 5 / 1000) * 100 from by ring,
      show ((0 + networth * 5 / 100 + networth * 5 / 100 + networth * 10 / 100 +
          networth * 30 / 100 + networth * 20 / 100 + networth * 20 / 100 +
          networth * 10 / 100 + cash + 5 / 1000) * 100 : ℚ) =
        (networth * 5 / 100 + networth * 5 / 100 + networth * 10 / 100 +
          networth * 30 / 100 + networth * 20 / 100 + networth * 20 / 100 +
          networth * 10 / 100 + cash + 5 / 1000) * 100 from by ring]

/-- C9 witness: the theorem applied to concrete aggregated holdings that
cover every target symbol. -/
theorem c9_reconciliation_nonfatal_witness :
    (model_portfolio_3_report 100 50 tgtAh).2 = some () ∧
    mp3Title ∈ (model_portfolio_3_report 100 50 tgtAh).1 :=
  ⟨(c9_reconciliation_nonfatal 100 50 5 5 10 30 20 20 10 tgtAh
      rfl rfl rfl rfl rfl rfl rfl).1,
   (c9_reconciliation_nonfatal 100 50 5 5 10 30 20 20 10 tgtAh
      rfl rfl rfl rfl rfl rfl rfl).2.1⟩

/-! ## C5 — no unused-alias diagnostic exists -/

/-- C5 (amended): the only lines `model_portfolio_3_report` can print after
the 14 lines of the report table (title, rules, header, seven security
rows, cash row, rule, totals row) are the three `Something is wrong`
warnings — reconciliation, desired-percent total and actual-percent total.
No unused-alias diagnostic is ever printed; unmatched alias-table entries
trigger no output, and the run completes regardless. -/
theorem c5_trailing_lines_only_totals_warnings (networth cash vA vB vC vD vE vF vG : ℚ)
    (ah : List (List Char × ℚ))
    (hA : ah.lookup "AKREX".data = some vA) (hB : ah.lookup "VDAIX".data = some vB)
    (hC : ah.lookup "VFWIX".data = some vC) (hD : ah.lookup "VTSMX".data = some vD)
    (hE : ah.lookup "DLSNX".data = some vE) (hF : ah.lookup "MWCRX".data = some vF)
    (hG : ah.lookup "OSTIX".data = some vG) :
    (model_portfolio_3_report networth cash ah).2 = some () ∧
    ∀ l ∈ (model_portfolio_3_report networth cash ah).1.drop 14,
      l = reconWarn ∨ l = desiredPercentWarn ∨ l = actualPercentWarn := by
  constructor
  · simp [model_portfolio_3_report, mp3Loop, MODEL_PORTFOLIO_III, hA, hB, hC, hD, hE, hF, hG]
  · intro l hl
    simp [model_portfolio_3_report, mp3Loop, MODEL_PORTFOLIO_III, hA, hB, hC, hD, hE, hF,
      hG, mem_ite_nil] at hl
    tauto

/-- C5 witness: the amended theorem applied at concrete aggregated
holdings. -/
theorem c5_trailing_lines_witness :
    (model_portfolio_3_report 100 50 tgtAh).2 = some () :=
  (c5_trailing_lines_only_totals_warnings 100 50 5 5 10 30 20 20 10 tgtAh
    rfl rfl rfl rfl rfl rfl rfl).1

/-- C5 (counterexample): a complete run whose input holdings match *no*
alias-table entry (every `MAP_SECURITY` key is absent from the parsed
dictionary, so every alias entry is "unused") produces exactly the pinned
28 report lines and completes; no unused-alias diagnostic is printed — no
output line even mentions any alias symbol. -/
theorem c5_no_unused_alias_diagnostic :
    ((MAP_SECURITY.map Prod.fst).filter fun a => (tgtDict.map Prod.fst).contains a) = [] ∧
    current_holdings_report "1/1/2018".data 50 tgtDict = (c5HoldingsOut, some (100, tgtAh)) ∧
    model_portfolio_3_report 100 50 tgtAh = (c5Mp3Out, some ()) ∧
    ((c5HoldingsOut ++ c5Mp3Out).all fun l =>
      (MAP_SECURITY.map Prod.fst).all fun a => !(occursIn a l)) = true := by
  have m1 : map_key_to_mp3 "AKREX".data = some "AKREX".data := by decide
  have m2 : map_key_to_mp3 "VDAIX".data = some "VDAIX".data := by decide
  have m3 : map_key_to_mp3 "VFWIX".data = some "VFWIX".data := by decide
  have m4 : map_key_to_mp3 "VTSMX".data = some "VTSMX".data := by decide
  have m5 : map_key_to_mp3 "DLSNX".data = some "DLSNX".data := by decide
  have m6 : map_key_to_mp3 "MWCRX".data = some "MWCRX".data := by decide
  have m7 : map_key_to_mp3 "OSTIX".data = some "OSTIX".data := by decide
  have hA : tgtAh.lookup "AKREX".data = some 5 := rfl
  have hB : tgtAh.lookup "VDAIX".data = some 5 := rfl
  have hC : tgtAh.lookup "VFWIX".data = some 10 := rfl
  have hD : tgtAh.lookup "VTSMX".data = some 30 := rfl
  have hE : tgtAh.lookup "DLSNX".data = some 20 := rfl
  have hF : tgtAh.lookup "MWCRX".data = some 20 := rfl
  have hG : tgtAh.lookup "OSTIX".data = some 10 := rfl
  have p5 : percentValue 5 100 = 5 := by norm_num [percentValue, pyInt]
  have p10 : percentValue 10 100 = 10 := by norm_num [percentValue, pyInt]
  have p30 : percentValue 30 100 = 30 := by norm_num [percentValue, pyInt]
  have p20 : percentValue 20 100 = 20 := by norm_num [percentValue, pyInt]
  have f5 : float_to_printable_str 5 = "5.00".data := by
    have h : rhe ((5 : ℚ) * 100) = 500 := by norm_num [rhe]
    simp [float_to_printable_str, h, natDigits]
    decide
  have f10 : float_to_printable_str 10 = "10.00".data := by
    have h : rhe ((10 : ℚ) * 100) = 1000 := by norm_num [rhe]
    simp [float_to_printable_str, h, natDigits]
    decide
  have f30 : float_to_printable_str 30 = "30.00".data := by
    have h : rhe ((30 : ℚ) * 100) = 3000 := by norm_num [rhe]
    simp [float_to_printable_str, h, natDigits]
    decide
  have f20 : float_to_printable_str 20 = "20.00".data := by
    have h : rhe ((20 : ℚ) * 100) = 2000 := by norm_num [rhe]
    simp [float_to_printable_str, h, natDigits]
    decide
  have f50 : float_to_printable_str 50 = "50.00".data := by
    have h : rhe ((50 : ℚ) * 100) = 5000 := by norm_num [rhe]
    simp [float_to_printable_str, h, natDigits]
    decide
  have f150 : float_to_printable_str 150 = "150.00".data := by
    have h : rhe ((150 : ℚ) * 100) = 15000 := by norm_num [rhe]
    simp [float_to_printable_str, h, natDigits]
    decide
  refine ⟨by decide, ?_, ?_, by decide⟩
  · simp [current_holdings_report, holdingsLoop, tgtDict, tgtAh, dadd, m1, m2, m3, m4, m5,
      m6, m7]
    norm_num [p5, p10, p30, p20, f5, f10, f30, f20, f50, f150, c5HoldingsOut,
      holdings_line, pyValStr, intRepr, natDigits, actualHoldingsTitle]
    decide
  · simp [model_portfolio_3_report, mp3Loop, MODEL_PORTFOLIO_III, hA, hB, hC, hD, hE, hF, hG]
    norm_num [p5, p10, p30, p20, f5, f10, f30, f20, f50, f150, c5Mp3Out, mp3line, pyValStr,
      intRepr, natDigits, mp3Title, pyInt]
    decide
